import Mathlib

/-!
Verification of the MasterDarkMaker core: the grouping engine
(`FileCombiner.py`, `SharedUtils.py`), the calibrator (`Calibrator.py`),
and the session orchestrator's error handling (`CombineThreadWorker.py`,
`MasterMakerExceptions.py`).

Python floats are modelled as exact rationals, pixel values as integers,
and fallible code (index errors, attribute errors, raised exceptions)
through `Option` / `Except`.
-/

/-- Modelled from the spec: `FileDescriptor.py` is not part of the sources;
spec section 3 lists its attributes (absolute path, display name, pixel
width (X), pixel height (Y), binning factor, exposure length, sensor
temperature, filter name, frame type). -/
structure FileDescriptor where
  absolute_path : String
  name : String
  x_dimension : Nat
  y_dimension : Nat
  binning : Nat
  exposure : Rat
  temperature : Rat
  filter_name : String
  type_code : Nat
deriving DecidableEq

/-- Modelled from the spec: the size stage sorts by "a composite key
(width, height, binning)" (spec section 4.1); `get_size_key` returns
that triple. -/
def FileDescriptor.get_size_key (d : FileDescriptor) : Nat × Nat × Nat :=
  (d.x_dimension, d.y_dimension, d.binning)

/-- Python tuple comparison used by `sorted` on the size key:
lexicographic on (width, height, binning). -/
def size_key_le (a b : Nat × Nat × Nat) : Prop :=
  a.1 < b.1 ∨ (a.1 = b.1 ∧ (a.2.1 < b.2.1 ∨ (a.2.1 = b.2.1 ∧ a.2.2 ≤ b.2.2)))

instance : DecidableRel size_key_le := fun a b => by
  unfold size_key_le
  infer_instance

/-- Ordering of descriptors by a rational-valued sort key, as used by
Python's `sorted(files, key=...)`. -/
def value_le (value : FileDescriptor → Rat) (a b : FileDescriptor) : Prop :=
  value a ≤ value b

instance (value : FileDescriptor → Rat) : DecidableRel (value_le value) :=
  fun a b => inferInstanceAs (Decidable (value a ≤ value b))

instance (value : FileDescriptor → Rat) : IsTotal FileDescriptor (value_le value) :=
  ⟨fun a b => le_total (value a) (value b)⟩

instance (value : FileDescriptor → Rat) : IsTrans FileDescriptor (value_le value) :=
  ⟨fun _ _ _ hab hbc => le_trans hab hbc⟩

/-- Ordering of descriptors by size key, as used by
`sorted(selected_files, key=FileDescriptor.get_size_key)`. -/
def size_le (a b : FileDescriptor) : Prop :=
  size_key_le a.get_size_key b.get_size_key

instance : DecidableRel size_le := fun a b =>
  inferInstanceAs (Decidable (size_key_le a.get_size_key b.get_size_key))

/-- Python's `sorted` is a stable sort; insertion sort with a total
preorder is stable as well. -/
def sort_by_value (value : FileDescriptor → Rat) (files : List FileDescriptor) :
    List FileDescriptor :=
  List.insertionSort (value_le value) files

/-- `sorted(selected_files, key=FileDescriptor.get_size_key)`. -/
def sort_by_size_key (files : List FileDescriptor) : List FileDescriptor :=
  List.insertionSort size_le files

/-- Inner loop of `itertools.groupby`: accumulate the current run of
equal keys (in reverse), emit it when the key changes. -/
def groupby_aux {κ : Type} [DecidableEq κ] (key : FileDescriptor → κ) :
    κ → List FileDescriptor → List FileDescriptor → List (List FileDescriptor)
  | _, current, [] => [current.reverse]
  | k, current, d :: rest =>
    if key d = k then groupby_aux key k (d :: current) rest
    else current.reverse :: groupby_aux key (key d) [d] rest

/-- `itertools.groupby(l, key)` materialized as a list of runs of equal
key (the callers only apply it to key-sorted lists). -/
def groupby_key {κ : Type} [DecidableEq κ] (key : FileDescriptor → κ) :
    List FileDescriptor → List (List FileDescriptor)
  | [] => []
  | d :: rest => groupby_aux key (key d) [d] rest

/-- Python's builtin `abs` on a float modelled as a rational: negate
exactly when negative.  (Kept explicit so that concrete runs reduce in
the kernel.) -/
def rat_abs (x : Rat) : Rat :=
  if x < 0 then -x else x

namespace SharedUtils

/-- `SharedUtils.values_same_within_tolerance` (SharedUtils.py lines
225-235): percentage difference relative to the first value, falling
back to the second value when the first is zero. -/
def values_same_within_tolerance (first_value second_value tolerance : Rat) : Bool :=
  let difference := rat_abs (first_value - second_value)
  if first_value = 0 then
    if second_value = 0 then
      true
    else
      decide (difference / second_value ≤ tolerance)
  else
    decide (difference / first_value ≤ tolerance)

/-- `SharedUtils.get_groups_by_size` (SharedUtils.py lines 160-171). -/
def get_groups_by_size (selected_files : List FileDescriptor) (is_grouped : Bool) :
    List (List FileDescriptor) :=
  if is_grouped then
    groupby_key FileDescriptor.get_size_key (sort_by_size_key selected_files)
  else
    [selected_files]

/-- Scan loop of `SharedUtils.get_groups_by_exposure` (SharedUtils.py
lines 184-193): compare each file to the exposure fixed when the
current group started; start a new group on failure. -/
def scan_by_exposure (tolerance : Rat) :
    Rat → List FileDescriptor → List (List FileDescriptor) → List FileDescriptor →
    List (List FileDescriptor)
  | _, current_list, result, [] => result ++ [current_list]
  | current_exposure, current_list, result, next_file :: rest =>
    if values_same_within_tolerance current_exposure next_file.exposure tolerance then
      scan_by_exposure tolerance current_exposure (current_list ++ [next_file]) result rest
    else
      scan_by_exposure tolerance next_file.exposure [next_file] (result ++ [current_list]) rest

/-- `SharedUtils.get_groups_by_exposure` (SharedUtils.py lines 178-196).
`files_sorted[0]` raises `IndexError` on an empty list when grouping is
enabled; that crash is modelled as `none`. -/
def get_groups_by_exposure (selected_files : List FileDescriptor) (is_grouped : Bool)
    (tolerance : Rat) : Option (List (List FileDescriptor)) :=
  if is_grouped then
    match sort_by_value (fun d => d.exposure) selected_files with
    | [] => none
    | first :: rest => some (scan_by_exposure tolerance first.exposure [] [] (first :: rest))
  else
    some [selected_files]

/-- Scan loop of `SharedUtils.get_groups_by_temperature` (SharedUtils.py
lines 209-218). -/
def scan_by_temperature (tolerance : Rat) :
    Rat → List FileDescriptor → List (List FileDescriptor) → List FileDescriptor →
    List (List FileDescriptor)
  | _, current_list, result, [] => result ++ [current_list]
  | current_temperature, current_list, result, next_file :: rest =>
    if values_same_within_tolerance current_temperature next_file.temperature tolerance then
      scan_by_temperature tolerance current_temperature (current_list ++ [next_file]) result rest
    else
      scan_by_temperature tolerance next_file.temperature [next_file]
        (result ++ [current_list]) rest

/-- `SharedUtils.get_groups_by_temperature` (SharedUtils.py lines
203-221), with the empty-list `IndexError` modelled as `none`. -/
def get_groups_by_temperature (selected_files : List FileDescriptor) (is_grouped : Bool)
    (tolerance : Rat) : Option (List (List FileDescriptor)) :=
  if is_grouped then
    match sort_by_value (fun d => d.temperature) selected_files with
    | [] => none
    | first :: rest => some (scan_by_temperature tolerance first.temperature [] [] (first :: rest))
  else
    some [selected_files]

end SharedUtils

namespace FileCombiner

/-- `FileCombiner.get_groups_by_size` (FileCombiner.py lines 192-203). -/
def get_groups_by_size (selected_files : List FileDescriptor) (is_grouped : Bool) :
    List (List FileDescriptor) :=
  if is_grouped then
    groupby_key FileDescriptor.get_size_key (sort_by_size_key selected_files)
  else
    [selected_files]

/-- Scan loop of `FileCombiner.get_groups_by_exposure` (FileCombiner.py
lines 218-228); it calls `SharedUtils.values_same_within_tolerance`. -/
def scan_by_exposure (tolerance : Rat) :
    Rat → List FileDescriptor → List (List FileDescriptor) → List FileDescriptor →
    List (List FileDescriptor)
  | _, current_list, result, [] => result ++ [current_list]
  | current_exposure, current_list, result, next_file :: rest =>
    if SharedUtils.values_same_within_tolerance current_exposure next_file.exposure tolerance then
      scan_by_exposure tolerance current_exposure (current_list ++ [next_file]) result rest
    else
      scan_by_exposure tolerance next_file.exposure [next_file] (result ++ [current_list]) rest

/-- `FileCombiner.get_groups_by_exposure` (FileCombiner.py lines
210-231), with the empty-list `IndexError` modelled as `none`. -/
def get_groups_by_exposure (selected_files : List FileDescriptor) (is_grouped : Bool)
    (tolerance : Rat) : Option (List (List FileDescriptor)) :=
  if is_grouped then
    match sort_by_value (fun d => d.exposure) selected_files with
    | [] => none
    | first :: rest => some (scan_by_exposure tolerance first.exposure [] [] (first :: rest))
  else
    some [selected_files]

/-- Scan loop of `FileCombiner.get_groups_by_temperature`
(FileCombiner.py lines 246-256). -/
def scan_by_temperature (tolerance : Rat) :
    Rat → List FileDescriptor → List (List FileDescriptor) → List FileDescriptor →
    List (List FileDescriptor)
  | _, current_list, result, [] => result ++ [current_list]
  | current_temperature, current_list, result, next_file :: rest =>
    if SharedUtils.values_same_within_tolerance current_temperature next_file.temperature
        tolerance then
      scan_by_temperature tolerance current_temperature (current_list ++ [next_file]) result rest
    else
      scan_by_temperature tolerance next_file.temperature [next_file]
        (result ++ [current_list]) rest

/-- `FileCombiner.get_groups_by_temperature` (FileCombiner.py lines
238-259), with the empty-list `IndexError` modelled as `none`. -/
def get_groups_by_temperature (selected_files : List FileDescriptor) (is_grouped : Bool)
    (tolerance : Rat) : Option (List (List FileDescriptor)) :=
  if is_grouped then
    match sort_by_value (fun d => d.temperature) selected_files with
    | [] => none
    | first :: rest => some (scan_by_temperature tolerance first.temperature [] [] (first :: rest))
  else
    some [selected_files]

/-- Nested grouping performed by `FileCombiner.process_groups`
(FileCombiner.py lines 60-78): size groups, exposure groups within each
size group, temperature groups within each exposure group, collecting
the innermost groups in iteration order.  Combination and file output
are outside the grouping claims. -/
def process_groups_temperature_stage (group_by_temperature : Bool) (temperature_tolerance : Rat) :
    List (List FileDescriptor) → Option (List (List FileDescriptor))
  | [] => some []
  | g :: gs => do
    let tgs ← get_groups_by_temperature g group_by_temperature temperature_tolerance
    let rest ← process_groups_temperature_stage group_by_temperature temperature_tolerance gs
    pure (tgs ++ rest)

/-- Exposure-then-temperature stage of `FileCombiner.process_groups`
applied to each size group in order. -/
def process_groups_exposure_stage (group_by_exposure : Bool) (exposure_tolerance : Rat)
    (group_by_temperature : Bool) (temperature_tolerance : Rat) :
    List (List FileDescriptor) → Option (List (List FileDescriptor))
  | [] => some []
  | g :: gs => do
    let egs ← get_groups_by_exposure g group_by_exposure exposure_tolerance
    let tgs ← process_groups_temperature_stage group_by_temperature temperature_tolerance egs
    let rest ← process_groups_exposure_stage group_by_exposure exposure_tolerance
      group_by_temperature temperature_tolerance gs
    pure (tgs ++ rest)

/-- The full nested grouping of `FileCombiner.process_groups`: the list
of innermost groups handed to `process_one_group`, in order; `none`
when one of the stages crashes with `IndexError`. -/
def process_groups_grouping (selected_files : List FileDescriptor)
    (group_by_size group_by_exposure group_by_temperature : Bool)
    (exposure_tolerance temperature_tolerance : Rat) :
    Option (List (List FileDescriptor)) :=
  process_groups_exposure_stage group_by_exposure exposure_tolerance
    group_by_temperature temperature_tolerance
    (get_groups_by_size selected_files group_by_size)

end FileCombiner

/-- Proof-infrastructure generalization of the four identical scan loops
(`tolerance` grouping over an arbitrary rational attribute); each
concrete scan is proved equal to this one. -/
def scan_runs (value : FileDescriptor → Rat) (tolerance : Rat) :
    Rat → List FileDescriptor → List (List FileDescriptor) → List FileDescriptor →
    List (List FileDescriptor)
  | _, current_list, result, [] => result ++ [current_list]
  | base, current_list, result, next_file :: rest =>
    if SharedUtils.values_same_within_tolerance base (value next_file) tolerance then
      scan_runs value tolerance base (current_list ++ [next_file]) result rest
    else
      scan_runs value tolerance (value next_file) [next_file] (result ++ [current_list]) rest

/-- Spec wording of the tolerance test (spec section 4.1): absolute
difference over `a` when `a` is nonzero, else over `b` when `b` is
nonzero, else true when both are zero. -/
def spec_tolerance_test (a b tolerance : Rat) : Bool :=
  if a ≠ 0 then
    decide (|a - b| / a ≤ tolerance)
  else if b ≠ 0 then
    decide (|a - b| / b ≤ tolerance)
  else
    true

/-- Spec wording of the scan (spec section 4.1): scan linearly, starting
a new group whenever the current frame's value is not same-within-
tolerance as the first frame accumulated in the current run; `first` is
that first frame, and every run starts as the singleton of its first
frame. -/
def spec_scan (value : FileDescriptor → Rat) (tolerance : Rat) :
    FileDescriptor → List FileDescriptor → List (List FileDescriptor) → List FileDescriptor →
    List (List FileDescriptor)
  | _, run, done, [] => done ++ [run]
  | first, run, done, d :: rest =>
    if spec_tolerance_test (value first) (value d) tolerance then
      spec_scan value tolerance first (run ++ [d]) done rest
    else
      spec_scan value tolerance d [d] (done ++ [run]) rest

/-- Spec wording of a tolerance-grouping stage (spec section 4.1,
exposure stage; the temperature stage is declared identical with
temperature values): sort ascending by the attribute, then scan. -/
def spec_groups_by (value : FileDescriptor → Rat) (tolerance : Rat)
    (files : List FileDescriptor) : List (List FileDescriptor) :=
  match sort_by_value value files with
  | [] => []
  | first :: rest => spec_scan value tolerance first [first] [] rest

/-- Exception classes actually defined in `MasterMakerExceptions.py`
(the whole module). -/
def master_maker_exception_classes : List String :=
  ["NoSuitableAutoBias", "NoGroupOutputDirectory", "NotAllDarkFrames",
   "IncompatibleSizes", "TestException", "NoAutoCalibrationDirectory"]

/-- Python-level failure values that the modelled code can surface. -/
inductive PyError where
  | masterMakerException (class_name : String) (argument : Option String)
  | attributeError (missing_attribute : String)
  | typeError (callee : String)
deriving DecidableEq

/-- Evaluation of `raise MasterMakerExceptions.<class_name>(argument)`:
an attribute lookup on the module precedes the raise, so a class name
missing from `MasterMakerExceptions.py` surfaces as `AttributeError`
instead of the intended exception. -/
def raise_master_maker_exception (class_name : String) (argument : Option String) : PyError :=
  if class_name ∈ master_maker_exception_classes then
    PyError.masterMakerException class_name argument
  else
    PyError.attributeError class_name

namespace Calibrator

/-- Element clamp of `numpy.ndarray.clip(low, high)`. -/
def clip (value low high : Int) : Int :=
  max low (min value high)

/-- `Calibrator.calibrate_with_pedestal` (Calibrator.py lines 37-42):
subtract the pedestal from every element of every array, then clip each
element to [0, 0xFFFF].  Pixel arrays are modelled as lists of integer
pixel values (spec section 3: pixel values are integers in [0, 65535];
the array loader fixing the machine representation is not in src). -/
def calibrate_with_pedestal (file_data : List (List Int)) (pedestal : Int) :
    List (List Int) :=
  file_data.map (fun layer =>
    (layer.map (fun element => element - pedestal)).map (fun element => clip element 0 0xFFFF))

/-- `sys.float_info.max`, the initial best difference in
`closest_temperature_match`: the largest IEEE double, whose exact value
is 2 to the 1024 minus 2 to the 971, written as a literal so concrete
runs reduce in the kernel. -/
def float_info_max : Rat :=
  179769313486231570814527423731704356798070567525844996598917476803157260780028538760589558632766878171540458953514382464234321326889464182768467546703537516986049910576551282076245490090389328944075868508455133942304583236903222948165808559332123348274797826204144723168738177180919299881250404026184124858368

/-- Modelled from the spec: `FileDescriptor()` default construction
(FileDescriptor.py is not in src); used only as the initial
`best_file_so_far`, which every claim replaces because the candidate
list is nonempty with bounded temperatures. -/
def empty_file_descriptor : FileDescriptor :=
  ⟨"", "", 0, 0, 0, 0, 0, "", 0⟩

/-- Loop body of `Calibrator.closest_temperature_match` (Calibrator.py
lines 110-113): replace the best candidate so far when this descriptor
is strictly closer to the target temperature. -/
def closest_match_step (target_temperature : Rat) (best : FileDescriptor × Rat)
    (descriptor : FileDescriptor) : FileDescriptor × Rat :=
  let this_difference := rat_abs (descriptor.temperature - target_temperature)
  if this_difference < best.2 then (descriptor, this_difference) else best

/-- `Calibrator.closest_temperature_match` (Calibrator.py lines
104-118): linear scan keeping the first descriptor with strictly
smallest absolute temperature difference, starting from a default
descriptor at distance `sys.float_info.max`. -/
def closest_temperature_match (descriptors : List FileDescriptor)
    (target_temperature : Rat) : FileDescriptor :=
  (descriptors.foldl (closest_match_step target_temperature)
    (empty_file_descriptor, float_info_max)).1

/-- `Calibrator.filter_to_correct_size` (Calibrator.py lines 92-102). -/
def filter_to_correct_size (all_descriptors : List FileDescriptor)
    (sample_file : FileDescriptor) : List FileDescriptor :=
  all_descriptors.filter (fun d =>
    d.x_dimension == sample_file.x_dimension &&
    d.y_dimension == sample_file.y_dimension &&
    d.binning == sample_file.binning)

/-- `Calibrator.get_best_calibration_file` (Calibrator.py lines 68-84).
Directory scanning is disk I/O; the descriptor list it would produce is
passed as `all_descriptors`. -/
def get_best_calibration_file (directory_path : String)
    (all_descriptors : List FileDescriptor) (sample_file : FileDescriptor) :
    Except PyError String :=
  if all_descriptors.length = 0 then
    Except.error (raise_master_maker_exception "AutoCalibrationDirectoryEmpty"
      (some directory_path))
  else
    let correct_size := filter_to_correct_size all_descriptors sample_file
    if correct_size.length = 0 then
      Except.error (raise_master_maker_exception "NoSuitableAutoBias" none)
    else
      Except.ok (closest_temperature_match correct_size sample_file.temperature).absolute_path

/-- Absolute temperature distance used by the selection claims. -/
def temperature_difference (target : Rat) (d : FileDescriptor) : Rat :=
  rat_abs (d.temperature - target)

end Calibrator

namespace CombineThreadWorker

/-- Number of call arguments accepted by
`CombineThreadWorker.error_dialog` beyond `self` (CombineThreadWorker.py
line 116: `def error_dialog(self, message: str)`). -/
def error_dialog_parameter_count : Nat := 1

/-- Positional arguments passed to `self.error_dialog(...)` by the
`except` handlers of `run_combination_session` (CombineThreadWorker.py
lines 63-97); every handler passes a title and a detail text (texts
abbreviated).  `none` means the exception has no handler there. -/
def session_error_dialog_arguments (exception_name : String) : Option (List String) :=
  if exception_name = "FileNotFoundError" then
    some ["File not found", "file not found or not readable"]
  else if exception_name = "NoGroupOutputDirectory" then
    some ["Group Directory Missing", "output directory does not exist and could not be created"]
  else if exception_name = "NotAllDarkFrames" then
    some ["The selected files are not all Dark Frames", "check the ignore-type box to proceed"]
  else if exception_name = "IncompatibleSizes" then
    some ["The selected files can't be combined", "files must have identical dimensions and binning"]
  else if exception_name = "NoAutoCalibrationDirectory" then
    some ["Auto Calibration Directory Missing", "directory does not exist or could not be read"]
  else if exception_name = "NoSuitableAutoBias" then
    some ["No matching calibration file", "no bias or dark file of appropriate size found"]
  else if exception_name = "PermissionError" then
    some ["Unable to write file", "output file cannot be written or replaced"]
  else
    none

/-- Outcome of handling one session failure: either a console error line
was produced and the session ends reported as failed, or the handler
itself raised and the session crashed. -/
inductive SessionOutcome where
  | failedReported (console_line : String)
  | crashed (error : PyError)
deriving DecidableEq

/-- Evaluation of the call `self.error_dialog(arguments...)`: Python
checks the arity before running the body; on a match the body prefixes
the message and sends it to the console sink. -/
def call_error_dialog (arguments : List String) : SessionOutcome :=
  if arguments.length = error_dialog_parameter_count then
    SessionOutcome.failedReported ("*** ERROR *** " ++ arguments.headD "")
  else
    SessionOutcome.crashed (PyError.typeError "error_dialog")

/-- What `run_combination_session` does when the work raises the named
exception: no handler lets it escape; a handler runs its
`error_dialog` call. -/
def handle_session_exception (exception_name : String) : Option SessionOutcome :=
  (session_error_dialog_arguments exception_name).map call_error_dialog

/-- The error taxonomy of spec section 7, by the exception names the
orchestrator would catch. -/
def session_error_taxonomy : List String :=
  ["FileNotFoundError", "IncompatibleSizes", "NotAllDarkFrames", "NoGroupOutputDirectory",
   "NoAutoCalibrationDirectory", "NoSuitableAutoBias", "PermissionError"]

end CombineThreadWorker

/-- Sample descriptor builder for concrete witnesses: path and name
`p`, square 100 by 100 frame, binning 1, dark type, given exposure and
temperature. -/
def sample_descriptor (p : String) (exposure temperature : Rat) : FileDescriptor :=
  ⟨p, p, 100, 100, 1, exposure, temperature, "Dark", 1⟩

/-- Property of every group emitted by a tolerance scan with a
nonnegative tolerance: nonempty, sorted ascending by the attribute, and
every member within tolerance of the group's first member. -/
def good_run (value : FileDescriptor → Rat) (tolerance : Rat) (g : List FileDescriptor) : Prop :=
  ∃ d ds, g = d :: ds ∧ List.Sorted (value_le value) g ∧
    ∀ m ∈ g, SharedUtils.values_same_within_tolerance (value d) (value m) tolerance = true

section GroupingLemmas

theorem rat_abs_eq_abs (x : Rat) : rat_abs x = |x| := by
  unfold rat_abs
  by_cases hx : x < 0
  · simp [hx, abs_of_neg hx]
  · simp [hx, abs_of_nonneg (le_of_not_lt hx)]

theorem rat_abs_nonneg (x : Rat) : 0 ≤ rat_abs x := by
  rw [rat_abs_eq_abs]
  exact abs_nonneg x

theorem vswt_self_true (a tolerance : Rat) (ht : 0 ≤ tolerance) :
    SharedUtils.values_same_within_tolerance a a tolerance = true := by
  unfold SharedUtils.values_same_within_tolerance rat_abs
  by_cases ha : a = 0
  · simp [ha]
  · simp [ha, sub_self, zero_div, ht]

theorem vswt_negative_base_true (a b tolerance : Rat) (ha : a < 0) (ht : 0 ≤ tolerance) :
    SharedUtils.values_same_within_tolerance a b tolerance = true := by
  unfold SharedUtils.values_same_within_tolerance
  have hne : a ≠ 0 := ne_of_lt ha
  simp only [hne, if_false, decide_eq_true_eq]
  have hquot : rat_abs (a - b) / a ≤ 0 :=
    div_nonpos_of_nonneg_of_nonpos (rat_abs_nonneg _) (le_of_lt ha)
  exact le_trans hquot ht

theorem su_scan_exposure_eq_scan_runs (tolerance : Rat) :
    ∀ (rest : List FileDescriptor) (base : Rat) (current : List FileDescriptor)
      (acc : List (List FileDescriptor)),
      SharedUtils.scan_by_exposure tolerance base current acc rest =
        scan_runs (fun d => d.exposure) tolerance base current acc rest
  | [], _, _, _ => rfl
  | next_file :: rest, base, current, acc => by
    simp only [SharedUtils.scan_by_exposure, scan_runs]
    by_cases h : SharedUtils.values_same_within_tolerance base next_file.exposure tolerance
    · simp only [h, if_true]
      exact su_scan_exposure_eq_scan_runs tolerance rest base (current ++ [next_file]) acc
    · simp only [h, if_false]
      exact su_scan_exposure_eq_scan_runs tolerance rest next_file.exposure [next_file]
        (acc ++ [current])

theorem su_scan_temperature_eq_scan_runs (tolerance : Rat) :
    ∀ (rest : List FileDescriptor) (base : Rat) (current : List FileDescriptor)
      (acc : List (List FileDescriptor)),
      SharedUtils.scan_by_temperature tolerance base current acc rest =
        scan_runs (fun d => d.temperature) tolerance base current acc rest
  | [], _, _, _ => rfl
  | next_file :: rest, base, current, acc => by
    simp only [SharedUtils.scan_by_temperature, scan_runs]
    by_cases h : SharedUtils.values_same_within_tolerance base next_file.temperature tolerance
    · simp only [h, if_true]
      exact su_scan_temperature_eq_scan_runs tolerance rest base (current ++ [next_file]) acc
    · simp only [h, if_false]
      exact su_scan_temperature_eq_scan_runs tolerance rest next_file.temperature [next_file]
        (acc ++ [current])

theorem fc_scan_exposure_eq_scan_runs (tolerance : Rat) :
    ∀ (rest : List FileDescriptor) (base : Rat) (current : List FileDescriptor)
      (acc : List (List FileDescriptor)),
      FileCombiner.scan_by_exposure tolerance base current acc rest =
        scan_runs (fun d => d.exposure) tolerance base current acc rest
  | [], _, _, _ => rfl
  | next_file :: rest, base, current, acc => by
    simp only [FileCombiner.scan_by_exposure, scan_runs]
    by_cases h : SharedUtils.values_same_within_tolerance base next_file.exposure tolerance
    · simp only [h, if_true]
      exact fc_scan_exposure_eq_scan_runs tolerance rest base (current ++ [next_file]) acc
    · simp only [h, if_false]
      exact fc_scan_exposure_eq_scan_runs tolerance rest next_file.exposure [next_file]
        (acc ++ [current])

theorem fc_scan_temperature_eq_scan_runs (tolerance : Rat) :
    ∀ (rest : List FileDescriptor) (base : Rat) (current : List FileDescriptor)
      (acc : List (List FileDescriptor)),
      FileCombiner.scan_by_temperature tolerance base current acc rest =
        scan_runs (fun d => d.temperature) tolerance base current acc rest
  | [], _, _, _ => rfl
  | next_file :: rest, base, current, acc => by
    simp only [FileCombiner.scan_by_temperature, scan_runs]
    by_cases h : SharedUtils.values_same_within_tolerance base next_file.temperature tolerance
    · simp only [h, if_true]
      exact fc_scan_temperature_eq_scan_runs tolerance rest base (current ++ [next_file]) acc
    · simp only [h, if_false]
      exact fc_scan_temperature_eq_scan_runs tolerance rest next_file.temperature [next_file]
        (acc ++ [current])

theorem scan_runs_flatten (value : FileDescriptor → Rat) (tolerance : Rat) :
    ∀ (rest : List FileDescriptor) (base : Rat) (current : List FileDescriptor)
      (acc : List (List FileDescriptor)),
      (scan_runs value tolerance base current acc rest).flatten =
        acc.flatten ++ current ++ rest
  | [], _, _, _ => by simp [scan_runs]
  | next_file :: rest, base, current, acc => by
    simp only [scan_runs]
    by_cases h : SharedUtils.values_same_within_tolerance base (value next_file) tolerance
    · simp only [h, if_true]
      exact (scan_runs_flatten value tolerance rest base (current ++ [next_file]) acc).trans
        (by simp)
    · simp only [h, if_false]
      exact (scan_runs_flatten value tolerance rest (value next_file) [next_file]
        (acc ++ [current])).trans (by simp)

theorem scan_runs_nonempty (value : FileDescriptor → Rat) (tolerance : Rat) :
    ∀ (rest : List FileDescriptor) (base : Rat) (current : List FileDescriptor)
      (acc : List (List FileDescriptor)),
      current ≠ [] → (∀ g ∈ acc, g ≠ []) →
      ∀ g ∈ scan_runs value tolerance base current acc rest, g ≠ []
  | [], _, current, acc, hcur, hacc => by
    simp only [scan_runs, List.mem_append, List.mem_singleton]
    rintro g (hg | rfl)
    · exact hacc g hg
    · exact hcur
  | next_file :: rest, base, current, acc, hcur, hacc => by
    simp only [scan_runs]
    by_cases h : SharedUtils.values_same_within_tolerance base (value next_file) tolerance
    · simp only [h, if_true]
      exact scan_runs_nonempty value tolerance rest base (current ++ [next_file]) acc
        (by simp) hacc
    · simp only [h, if_false]
      refine scan_runs_nonempty value tolerance rest (value next_file) [next_file]
        (acc ++ [current]) (by simp) ?_
      intro g hg
      rcases List.mem_append.1 hg with hg | hg
      · exact hacc g hg
      · rw [List.mem_singleton] at hg
        subst hg
        exact hcur

theorem scan_runs_all_pass (value : FileDescriptor → Rat) (tolerance : Rat) :
    ∀ (rest : List FileDescriptor) (base : Rat) (current : List FileDescriptor)
      (acc : List (List FileDescriptor)),
      (∀ m ∈ rest, SharedUtils.values_same_within_tolerance base (value m) tolerance = true) →
      scan_runs value tolerance base current acc rest = acc ++ [current ++ rest]
  | [], _, current, acc, _ => by simp [scan_runs]
  | next_file :: rest, base, current, acc, hpass => by
    simp only [scan_runs, hpass next_file (List.mem_cons_self _ _), if_true]
    rw [scan_runs_all_pass value tolerance rest base (current ++ [next_file]) acc
      (fun m hm => hpass m (List.mem_cons_of_mem _ hm))]
    simp

end GroupingLemmas

section GroupbyLemmas

theorem groupby_aux_flatten {κ : Type} [DecidableEq κ] (key : FileDescriptor → κ) :
    ∀ (rest : List FileDescriptor) (k : κ) (current : List FileDescriptor),
      (groupby_aux key k current rest).flatten = current.reverse ++ rest
  | [], _, _ => by simp [groupby_aux]
  | d :: rest, k, current => by
    simp only [groupby_aux]
    by_cases h : key d = k
    · simp only [h, if_true]
      exact (groupby_aux_flatten key rest k (d :: current)).trans (by simp)
    · simp only [h, if_false]
      simp only [List.flatten_cons]
      rw [groupby_aux_flatten key rest (key d) [d]]
      simp

theorem groupby_key_flatten {κ : Type} [DecidableEq κ] (key : FileDescriptor → κ)
    (l : List FileDescriptor) : (groupby_key key l).flatten = l := by
  cases l with
  | nil => simp [groupby_key]
  | cons d rest =>
    simp only [groupby_key]
    rw [groupby_aux_flatten key rest (key d) [d]]
    simp

theorem groupby_aux_nonempty {κ : Type} [DecidableEq κ] (key : FileDescriptor → κ) :
    ∀ (rest : List FileDescriptor) (k : κ) (current : List FileDescriptor),
      current ≠ [] → ∀ g ∈ groupby_aux key k current rest, g ≠ []
  | [], _, current, hcur => by
    simp only [groupby_aux, List.mem_singleton]
    rintro g rfl
    simpa using hcur
  | d :: rest, k, current, hcur => by
    simp only [groupby_aux]
    by_cases h : key d = k
    · simp only [h, if_true]
      exact groupby_aux_nonempty key rest k (d :: current) (by simp)
    · simp only [h, if_false]
      intro g hg
      rcases List.mem_cons.1 hg with rfl | hg
      · simpa using hcur
      · exact groupby_aux_nonempty key rest (key d) [d] (by simp) g hg

theorem groupby_key_nonempty {κ : Type} [DecidableEq κ] (key : FileDescriptor → κ)
    (l : List FileDescriptor) : ∀ g ∈ groupby_key key l, g ≠ [] := by
  cases l with
  | nil => simp [groupby_key]
  | cons d rest => exact groupby_aux_nonempty key rest (key d) [d] (by simp)

end GroupbyLemmas

section SortLemmas

theorem sort_by_value_perm (value : FileDescriptor → Rat) (files : List FileDescriptor) :
    (sort_by_value value files).Perm files :=
  List.perm_insertionSort (value_le value) files

theorem sort_by_size_key_perm (files : List FileDescriptor) :
    (sort_by_size_key files).Perm files :=
  List.perm_insertionSort size_le files

theorem sort_by_value_sorted (value : FileDescriptor → Rat) (files : List FileDescriptor) :
    List.Sorted (value_le value) (sort_by_value value files) :=
  List.sorted_insertionSort (value_le value) files

theorem sort_by_value_ne_nil (value : FileDescriptor → Rat) (files : List FileDescriptor)
    (hne : files ≠ []) : sort_by_value value files ≠ [] := by
  intro h
  exact hne (List.Perm.eq_nil (h ▸ (sort_by_value_perm value files).symm))

end SortLemmas

section StageLemmas

theorem grouped_scan_stage (value : FileDescriptor → Rat) (tolerance : Rat)
    (files : List FileDescriptor) (ht : 0 ≤ tolerance) (first : FileDescriptor)
    (rest : List FileDescriptor) (heq : sort_by_value value files = first :: rest) :
    (scan_runs value tolerance (value first) [] [] (first :: rest)).flatten.Perm files ∧
    ∀ g ∈ scan_runs value tolerance (value first) [] [] (first :: rest), g ≠ [] := by
  have hstep : scan_runs value tolerance (value first) [] [] (first :: rest) =
      scan_runs value tolerance (value first) [first] [] rest := by
    simp only [scan_runs]
    rw [if_pos (vswt_self_true (value first) tolerance ht)]
    simp
  constructor
  · rw [hstep, scan_runs_flatten]
    simp only [List.flatten_nil, List.nil_append, List.singleton_append]
    exact heq ▸ sort_by_value_perm value files
  · rw [hstep]
    exact scan_runs_nonempty value tolerance rest (value first) [first] []
      (by simp) (by simp)

theorem fc_groups_by_size_stage (files : List FileDescriptor) (is_grouped : Bool)
    (hne : files ≠ []) :
    (FileCombiner.get_groups_by_size files is_grouped).flatten.Perm files ∧
    ∀ g ∈ FileCombiner.get_groups_by_size files is_grouped, g ≠ [] := by
  cases is_grouped with
  | false =>
    simp only [FileCombiner.get_groups_by_size, Bool.false_eq_true, if_false]
    constructor
    · simp
    · intro g hg
      rw [List.mem_singleton] at hg
      exact hg ▸ hne
  | true =>
    simp only [FileCombiner.get_groups_by_size, if_true]
    constructor
    · rw [groupby_key_flatten]
      exact sort_by_size_key_perm files
    · exact groupby_key_nonempty _ _

theorem fc_groups_by_exposure_stage (g : List FileDescriptor) (is_grouped : Bool)
    (tolerance : Rat) (hne : g ≠ []) (ht : 0 ≤ tolerance) :
    ∃ egs, FileCombiner.get_groups_by_exposure g is_grouped tolerance = some egs ∧
      egs.flatten.Perm g ∧ ∀ e ∈ egs, e ≠ [] := by
  cases is_grouped with
  | false =>
    refine ⟨[g], by simp [FileCombiner.get_groups_by_exposure], by simp, ?_⟩
    intro e he
    rw [List.mem_singleton] at he
    exact he ▸ hne
  | true =>
    obtain ⟨first, rest, heq⟩ :=
      List.exists_cons_of_ne_nil (sort_by_value_ne_nil (fun d => d.exposure) g hne)
    refine ⟨scan_runs (fun d => d.exposure) tolerance first.exposure [] [] (first :: rest),
      ?_, ?_, ?_⟩
    · simp only [FileCombiner.get_groups_by_exposure, if_true, heq]
      rw [fc_scan_exposure_eq_scan_runs]
    · exact (grouped_scan_stage (fun d => d.exposure) tolerance g ht first rest heq).1
    · exact (grouped_scan_stage (fun d => d.exposure) tolerance g ht first rest heq).2

theorem fc_groups_by_temperature_stage (g : List FileDescriptor) (is_grouped : Bool)
    (tolerance : Rat) (hne : g ≠ []) (ht : 0 ≤ tolerance) :
    ∃ tgs, FileCombiner.get_groups_by_temperature g is_grouped tolerance = some tgs ∧
      tgs.flatten.Perm g ∧ ∀ t ∈ tgs, t ≠ [] := by
  cases is_grouped with
  | false =>
    refine ⟨[g], by simp [FileCombiner.get_groups_by_temperature], by simp, ?_⟩
    intro e he
    rw [List.mem_singleton] at he
    exact he ▸ hne
  | true =>
    obtain ⟨first, rest, heq⟩ :=
      List.exists_cons_of_ne_nil (sort_by_value_ne_nil (fun d => d.temperature) g hne)
    refine ⟨scan_runs (fun d => d.temperature) tolerance first.temperature [] [] (first :: rest),
      ?_, ?_, ?_⟩
    · simp only [FileCombiner.get_groups_by_temperature, if_true, heq]
      rw [fc_scan_temperature_eq_scan_runs]
    · exact (grouped_scan_stage (fun d => d.temperature) tolerance g ht first rest heq).1
    · exact (grouped_scan_stage (fun d => d.temperature) tolerance g ht first rest heq).2

end StageLemmas

section GoodRunLemmas

theorem scan_runs_good (value : FileDescriptor → Rat) (tolerance : Rat) (ht : 0 ≤ tolerance) :
    ∀ (rest current : List FileDescriptor) (acc : List (List FileDescriptor)) (base : Rat),
      List.Sorted (value_le value) (current ++ rest) →
      (∀ g ∈ acc, good_run value tolerance g) →
      ((current = [] ∧ ∃ d t, rest = d :: t ∧ base = value d) ∨
        (∃ hd tl, current = hd :: tl ∧ base = value hd ∧
          ∀ m ∈ current,
            SharedUtils.values_same_within_tolerance base (value m) tolerance = true)) →
      ∀ g ∈ scan_runs value tolerance base current acc rest, good_run value tolerance g
  | [], current, acc, base, hsort, hacc, hinv => by
    simp only [scan_runs]
    intro g hg
    rcases List.mem_append.1 hg with hg | hg
    · exact hacc g hg
    · rw [List.mem_singleton] at hg
      subst hg
      rcases hinv with ⟨_, d, t, hdt, _⟩ | ⟨hd, tl, hcur, hbase, hpass⟩
      · cases hdt
      · refine ⟨hd, tl, hcur, by simpa using hsort, ?_⟩
        rw [← hbase]
        exact hpass
  | next_file :: rest, current, acc, base, hsort, hacc, hinv => by
    simp only [scan_runs]
    by_cases h : SharedUtils.values_same_within_tolerance base (value next_file) tolerance
    · simp only [h, if_true]
      refine scan_runs_good value tolerance ht rest (current ++ [next_file]) acc base
        (by simpa [List.append_assoc] using hsort) hacc ?_
      right
      rcases hinv with ⟨hcur, d, t, hdt, hbase⟩ | ⟨hd, tl, hcur, hbase, hpass⟩
      · injection hdt with hd1 _
        subst hd1
        subst hcur
        refine ⟨next_file, [], by simp, hbase, ?_⟩
        intro m hm
        rw [List.nil_append, List.mem_singleton] at hm
        subst hm
        exact h
      · refine ⟨hd, tl ++ [next_file], by simp [hcur], hbase, ?_⟩
        intro m hm
        rcases List.mem_append.1 hm with hm | hm
        · exact hpass m hm
        · rw [List.mem_singleton] at hm
          subst hm
          exact h
    · simp only [h, if_false]
      have hinv2 : ∃ hd tl, current = hd :: tl ∧ base = value hd ∧
          ∀ m ∈ current,
            SharedUtils.values_same_within_tolerance base (value m) tolerance = true := by
        rcases hinv with ⟨hcur, d, t, hdt, hbase⟩ | hinv
        · injection hdt with hd1 _
          subst hd1
          rw [hbase] at h
          exact absurd (vswt_self_true (value next_file) tolerance ht) h
        · exact hinv
      obtain ⟨hd, tl, hcurrent, hbase, hpass⟩ := hinv2
      refine scan_runs_good value tolerance ht rest [next_file] (acc ++ [current])
        (value next_file) ?_ ?_ ?_
      · have hsub : List.Sublist (next_file :: rest) (current ++ next_file :: rest) :=
          List.sublist_append_right current (next_file :: rest)
        simpa using List.Pairwise.sublist hsub hsort
      · intro g hg
        rcases List.mem_append.1 hg with hg | hg
        · exact hacc g hg
        · rw [List.mem_singleton] at hg
          rw [hg]
          refine ⟨hd, tl, hcurrent, ?_, ?_⟩
          · have hsub : List.Sublist current (current ++ next_file :: rest) :=
              List.sublist_append_left current (next_file :: rest)
            exact List.Pairwise.sublist hsub hsort
          · rw [← hbase]
            exact hpass
      · right
        refine ⟨next_file, [], rfl, rfl, ?_⟩
        intro m hm
        rw [List.mem_singleton] at hm
        rw [hm]
        exact vswt_self_true (value next_file) tolerance ht

theorem fc_groups_by_exposure_good (files : List FileDescriptor) (tolerance : Rat)
    (gs : List (List FileDescriptor)) (ht : 0 ≤ tolerance)
    (hgs : FileCombiner.get_groups_by_exposure files true tolerance = some gs) :
    ∀ g ∈ gs, good_run (fun d => d.exposure) tolerance g := by
  rcases heq : sort_by_value (fun d => d.exposure) files with _ | ⟨first, rest⟩
  · simp [FileCombiner.get_groups_by_exposure, heq] at hgs
  · simp only [FileCombiner.get_groups_by_exposure, if_true, heq, Option.some.injEq] at hgs
    subst hgs
    rw [fc_scan_exposure_eq_scan_runs]
    have hs := sort_by_value_sorted (fun d => d.exposure) files
    rw [heq] at hs
    refine scan_runs_good (fun d => d.exposure) tolerance ht (first :: rest) [] [] first.exposure
      (by simpa using hs) (by simp) ?_
    left
    exact ⟨rfl, first, rest, rfl, rfl⟩

theorem fc_groups_by_temperature_good (files : List FileDescriptor) (tolerance : Rat)
    (gs : List (List FileDescriptor)) (ht : 0 ≤ tolerance)
    (hgs : FileCombiner.get_groups_by_temperature files true tolerance = some gs) :
    ∀ g ∈ gs, good_run (fun d => d.temperature) tolerance g := by
  rcases heq : sort_by_value (fun d => d.temperature) files with _ | ⟨first, rest⟩
  · simp [FileCombiner.get_groups_by_temperature, heq] at hgs
  · simp only [FileCombiner.get_groups_by_temperature, if_true, heq, Option.some.injEq] at hgs
    subst hgs
    rw [fc_scan_temperature_eq_scan_runs]
    have hs := sort_by_value_sorted (fun d => d.temperature) files
    rw [heq] at hs
    refine scan_runs_good (fun d => d.temperature) tolerance ht (first :: rest) [] []
      first.temperature (by simpa using hs) (by simp) ?_
    left
    exact ⟨rfl, first, rest, rfl, rfl⟩

theorem fc_regroup_exposure (tolerance : Rat) (g : List FileDescriptor)
    (ht : 0 ≤ tolerance) (hg : good_run (fun d => d.exposure) tolerance g) :
    FileCombiner.get_groups_by_exposure g true tolerance = some [g] := by
  obtain ⟨d, ds, hcons, hsorted, hpass⟩ := hg
  have hsort : sort_by_value (fun d => d.exposure) g = d :: ds :=
    (List.Sorted.insertionSort_eq hsorted).trans hcons
  simp only [FileCombiner.get_groups_by_exposure, if_true, hsort]
  rw [fc_scan_exposure_eq_scan_runs,
    scan_runs_all_pass (fun d => d.exposure) tolerance (d :: ds) d.exposure [] []
      (by rw [← hcons]; exact hpass)]
  simp [hcons]

theorem fc_regroup_temperature (tolerance : Rat) (g : List FileDescriptor)
    (ht : 0 ≤ tolerance) (hg : good_run (fun d => d.temperature) tolerance g) :
    FileCombiner.get_groups_by_temperature g true tolerance = some [g] := by
  obtain ⟨d, ds, hcons, hsorted, hpass⟩ := hg
  have hsort : sort_by_value (fun d => d.temperature) g = d :: ds :=
    (List.Sorted.insertionSort_eq hsorted).trans hcons
  simp only [FileCombiner.get_groups_by_temperature, if_true, hsort]
  rw [fc_scan_temperature_eq_scan_runs,
    scan_runs_all_pass (fun d => d.temperature) tolerance (d :: ds) d.temperature [] []
      (by rw [← hcons]; exact hpass)]
  simp [hcons]

end GoodRunLemmas

section CopyEqualityLemmas

theorem fc_su_groups_by_size_eq (files : List FileDescriptor) (is_grouped : Bool) :
    FileCombiner.get_groups_by_size files is_grouped =
      SharedUtils.get_groups_by_size files is_grouped := rfl

theorem fc_su_groups_by_exposure_eq (files : List FileDescriptor) (is_grouped : Bool)
    (tolerance : Rat) :
    FileCombiner.get_groups_by_exposure files is_grouped tolerance =
      SharedUtils.get_groups_by_exposure files is_grouped tolerance := by
  cases is_grouped with
  | false => rfl
  | true =>
    cases heq : sort_by_value (fun d => d.exposure) files with
    | nil =>
      simp [FileCombiner.get_groups_by_exposure, SharedUtils.get_groups_by_exposure, heq]
    | cons first rest =>
      simp only [FileCombiner.get_groups_by_exposure, SharedUtils.get_groups_by_exposure,
        if_true, heq]
      rw [fc_scan_exposure_eq_scan_runs, su_scan_exposure_eq_scan_runs]

theorem fc_su_groups_by_temperature_eq (files : List FileDescriptor) (is_grouped : Bool)
    (tolerance : Rat) :
    FileCombiner.get_groups_by_temperature files is_grouped tolerance =
      SharedUtils.get_groups_by_temperature files is_grouped tolerance := by
  cases is_grouped with
  | false => rfl
  | true =>
    cases heq : sort_by_value (fun d => d.temperature) files with
    | nil =>
      simp [FileCombiner.get_groups_by_temperature, SharedUtils.get_groups_by_temperature, heq]
    | cons first rest =>
      simp only [FileCombiner.get_groups_by_temperature, SharedUtils.get_groups_by_temperature,
        if_true, heq]
      rw [fc_scan_temperature_eq_scan_runs, su_scan_temperature_eq_scan_runs]

end CopyEqualityLemmas

section SpecScanLemmas

theorem spec_tolerance_test_agrees (a b tolerance : Rat) :
    spec_tolerance_test a b tolerance =
      SharedUtils.values_same_within_tolerance a b tolerance := by
  unfold spec_tolerance_test SharedUtils.values_same_within_tolerance
  by_cases ha : a = 0 <;> by_cases hb : b = 0 <;> simp [ha, hb, rat_abs_eq_abs]

theorem scan_runs_eq_spec_scan (value : FileDescriptor → Rat) (tolerance : Rat) :
    ∀ (rest : List FileDescriptor) (first : FileDescriptor) (run : List FileDescriptor)
      (done : List (List FileDescriptor)),
      scan_runs value tolerance (value first) run done rest =
        spec_scan value tolerance first run done rest
  | [], _, _, _ => rfl
  | d :: rest, first, run, done => by
    simp only [scan_runs, spec_scan, spec_tolerance_test_agrees]
    by_cases h : SharedUtils.values_same_within_tolerance (value first) (value d) tolerance
    · simp only [h, if_true]
      exact scan_runs_eq_spec_scan value tolerance rest first (run ++ [d]) done
    · simp only [h, if_false]
      exact scan_runs_eq_spec_scan value tolerance rest d [d] (done ++ [run])

end SpecScanLemmas

section ClosestMatchLemmas

theorem closest_match_foldl_spec (target : Rat) :
    ∀ (l : List FileDescriptor) (b0 : FileDescriptor) (d0 : Rat),
      (l.foldl (Calibrator.closest_match_step target) (b0, d0) = (b0, d0) ∧
        ∀ d ∈ l, d0 ≤ rat_abs (d.temperature - target)) ∨
      (∃ before x after, l = before ++ x :: after ∧
        l.foldl (Calibrator.closest_match_step target) (b0, d0) =
          (x, rat_abs (x.temperature - target)) ∧
        rat_abs (x.temperature - target) < d0 ∧
        (∀ d ∈ before, rat_abs (x.temperature - target) < rat_abs (d.temperature - target)) ∧
        (∀ d ∈ after, rat_abs (x.temperature - target) ≤ rat_abs (d.temperature - target)))
  | [], b0, d0 => by
    left
    exact ⟨rfl, by simp⟩
  | d :: rest, b0, d0 => by
    simp only [List.foldl_cons]
    by_cases h : rat_abs (d.temperature - target) < d0
    · have hstep : Calibrator.closest_match_step target (b0, d0) d =
          (d, rat_abs (d.temperature - target)) := by
        simp [Calibrator.closest_match_step, h]
      rw [hstep]
      rcases closest_match_foldl_spec target rest d (rat_abs (d.temperature - target)) with
        ⟨heq, hall⟩ | ⟨before, x, after, hsplit, heq, hlt, hbef, haft⟩
      · right
        exact ⟨[], d, rest, by simp, heq, h, by simp, hall⟩
      · right
        refine ⟨d :: before, x, after, by simp [hsplit], heq, lt_trans hlt h, ?_, haft⟩
        intro e he
        rcases List.mem_cons.1 he with rfl | he
        · exact hlt
        · exact hbef e he
    · have hstep : Calibrator.closest_match_step target (b0, d0) d = (b0, d0) := by
        simp [Calibrator.closest_match_step, h]
      rw [hstep]
      rcases closest_match_foldl_spec target rest b0 d0 with
        ⟨heq, hall⟩ | ⟨before, x, after, hsplit, heq, hlt, hbef, haft⟩
      · left
        refine ⟨heq, ?_⟩
        intro e he
        rcases List.mem_cons.1 he with rfl | he
        · exact le_of_not_lt h
        · exact hall e he
      · right
        refine ⟨d :: before, x, after, by simp [hsplit], heq, hlt, ?_, haft⟩
        intro e he
        rcases List.mem_cons.1 he with rfl | he
        · exact lt_of_lt_of_le hlt (le_of_not_lt h)
        · exact hbef e he

end ClosestMatchLemmas

section PipelineLemmas

theorem temperature_stage_total (group_by_temperature : Bool) (tolerance : Rat)
    (ht : 0 ≤ tolerance) :
    ∀ gs : List (List FileDescriptor), (∀ g ∈ gs, g ≠ []) →
      ∃ ts, FileCombiner.process_groups_temperature_stage group_by_temperature tolerance gs =
          some ts ∧ ts.flatten.Perm gs.flatten ∧ ∀ t ∈ ts, t ≠ []
  | [], _ => ⟨[], rfl, by simp, by simp⟩
  | g :: gs, hne => by
    obtain ⟨tgs, htgs, hperm, hnonempty⟩ :=
      fc_groups_by_temperature_stage g group_by_temperature tolerance
        (hne g (List.mem_cons_self _ _)) ht
    obtain ⟨ts, hts, hperm2, hnonempty2⟩ :=
      temperature_stage_total group_by_temperature tolerance ht gs
        (fun x hx => hne x (List.mem_cons_of_mem _ hx))
    refine ⟨tgs ++ ts, ?_, ?_, ?_⟩
    · simp [FileCombiner.process_groups_temperature_stage, htgs, hts]
    · simp only [List.flatten_append, List.flatten_cons]
      exact hperm.append hperm2
    · intro t htm
      rcases List.mem_append.1 htm with hm | hm
      · exact hnonempty t hm
      · exact hnonempty2 t hm

theorem exposure_stage_total (group_by_exposure : Bool) (exposure_tolerance : Rat)
    (group_by_temperature : Bool) (temperature_tolerance : Rat)
    (hte : 0 ≤ exposure_tolerance) (htt : 0 ≤ temperature_tolerance) :
    ∀ gs : List (List FileDescriptor), (∀ g ∈ gs, g ≠ []) →
      ∃ ts, FileCombiner.process_groups_exposure_stage group_by_exposure exposure_tolerance
          group_by_temperature temperature_tolerance gs = some ts ∧
        ts.flatten.Perm gs.flatten ∧ ∀ t ∈ ts, t ≠ []
  | [], _ => ⟨[], rfl, by simp, by simp⟩
  | g :: gs, hne => by
    obtain ⟨egs, hegs, hperm, hnonempty⟩ :=
      fc_groups_by_exposure_stage g group_by_exposure exposure_tolerance
        (hne g (List.mem_cons_self _ _)) hte
    obtain ⟨tgs, htgs, hperm2, hnonempty2⟩ :=
      temperature_stage_total group_by_temperature temperature_tolerance htt egs hnonempty
    obtain ⟨ts, hts, hperm3, hnonempty3⟩ :=
      exposure_stage_total group_by_exposure exposure_tolerance group_by_temperature
        temperature_tolerance hte htt gs (fun x hx => hne x (List.mem_cons_of_mem _ hx))
    refine ⟨tgs ++ ts, ?_, ?_, ?_⟩
    · simp [FileCombiner.process_groups_exposure_stage, hegs, htgs, hts]
    · simp only [List.flatten_append, List.flatten_cons]
      exact (hperm2.trans hperm).append hperm3
    · intro t htm
      rcases List.mem_append.1 htm with hm | hm
      · exact hnonempty2 t hm
      · exact hnonempty3 t hm

end PipelineLemmas

section Claims

/-- Claim C3: for every list of pixel arrays and every pedestal,
`calibrate_with_pedestal` keeps the list length, maps every element to
the original value minus the pedestal saturated into [0, 65535], hence
every output element lies in [0, 65535]; in particular pixel 5 with
pedestal 10 becomes 0, not -5. -/
theorem c3_pedestal_subtracts_and_clamps :
    ∀ (file_data : List (List Int)) (pedestal : Int),
      (Calibrator.calibrate_with_pedestal file_data pedestal).length = file_data.length ∧
      (∀ i j : Nat,
        ((Calibrator.calibrate_with_pedestal file_data pedestal)[i]?.bind
            fun layer => layer[j]?) =
          (file_data[i]?.bind fun layer => layer[j]?).map
            (fun element => max 0 (min (element - pedestal) 65535))) ∧
      (∀ i j : Nat, ∀ v : Int,
        ((Calibrator.calibrate_with_pedestal file_data pedestal)[i]?.bind
            fun layer => layer[j]?) = some v → 0 ≤ v ∧ v ≤ 65535) ∧
      Calibrator.calibrate_with_pedestal [[5]] 10 = [[0]] := by
  intro file_data pedestal
  have hmap : Calibrator.calibrate_with_pedestal file_data pedestal =
      file_data.map (fun layer =>
        layer.map (fun element => max 0 (min (element - pedestal) 65535))) := by
    unfold Calibrator.calibrate_with_pedestal Calibrator.clip
    simp [List.map_map, Function.comp]
  have hsecond : ∀ i j : Nat,
      ((Calibrator.calibrate_with_pedestal file_data pedestal)[i]?.bind
          fun layer => layer[j]?) =
        (file_data[i]?.bind fun layer => layer[j]?).map
          (fun element => max 0 (min (element - pedestal) 65535)) := by
    intro i j
    rw [hmap]
    rcases hi : file_data[i]? with _ | layer
    · simp [hi]
    · simp [hi, List.getElem?_map]
  refine ⟨by rw [hmap]; simp, hsecond, ?_, by rfl⟩
  intro i j v hv
  rw [hsecond i j] at hv
  rcases ho : (file_data[i]?.bind fun layer => layer[j]?) with _ | element
  · rw [ho] at hv
    simp at hv
  · rw [ho] at hv
    have hval : max 0 (min (element - pedestal) 65535) = v := by simpa using hv
    constructor
    · omega
    · omega

/-- Claim C3 witness: at the concrete input of the spec's example the
bounds conjunct applies to the produced pixel 0. -/
theorem c3_pedestal_subtracts_and_clamps_witness :
    (0 : Int) ≤ 0 ∧ (0 : Int) ≤ 65535 :=
  (c3_pedestal_subtracts_and_clamps [[5]] 10).2.2.1 0 0 0 rfl

/-- Claim C5 (code bug): with an empty auto-calibration directory the
code attempts to raise `MasterMakerExceptions.AutoCalibrationDirectoryEmpty`,
but no class of that name exists in `MasterMakerExceptions.py`, so the
attribute lookup itself fails (`AttributeError`) instead of surfacing
the distinguishable error value the spec requires; the `NoSuitableAutoBias`
path does surface its distinguishable value. -/
theorem c5_auto_directory_empty_raises_attribute_error :
    (∀ (directory_path : String) (sample_file : FileDescriptor),
      Calibrator.get_best_calibration_file directory_path [] sample_file =
        Except.error (PyError.attributeError "AutoCalibrationDirectoryEmpty")) ∧
    "AutoCalibrationDirectoryEmpty" ∉ master_maker_exception_classes ∧
    Calibrator.get_best_calibration_file "dir"
        [⟨"c", "c", 200, 200, 1, 10, 0, "Dark", 1⟩] (sample_descriptor "s" 10 (-4)) =
      Except.error (PyError.masterMakerException "NoSuitableAutoBias" none) := by
  refine ⟨fun directory_path sample_file => rfl, by decide, by rfl⟩

/-- Claim C6 (code bug): every failure kind of the error taxonomy is
caught by `run_combination_session`, but each handler calls
`error_dialog` with two positional arguments while `error_dialog`
accepts one, so the handler itself raises `TypeError` and the session
crashes instead of reporting the message and ending in the Failed
state. -/
theorem c6_handlers_crash_with_type_error :
    (CombineThreadWorker.session_error_taxonomy.all (fun e =>
      decide (CombineThreadWorker.handle_session_exception e =
        some (CombineThreadWorker.SessionOutcome.crashed
          (PyError.typeError "error_dialog")))) = true) ∧
    CombineThreadWorker.error_dialog_parameter_count = 1 ∧
    (∀ e args, CombineThreadWorker.session_error_dialog_arguments e = some args →
      args.length = 2) := by
  refine ⟨by decide, rfl, ?_⟩
  intro e args hargs
  unfold CombineThreadWorker.session_error_dialog_arguments at hargs
  split at hargs <;>
    first
      | (cases hargs; rfl)
      | (split at hargs <;>
          first
            | (cases hargs; rfl)
            | (split at hargs <;>
                first
                  | (cases hargs; rfl)
                  | (split at hargs <;>
                      first
                        | (cases hargs; rfl)
                        | (split at hargs <;>
                            first
                              | (cases hargs; rfl)
                              | (split at hargs <;>
                                  first
                                    | (cases hargs; rfl)
                                    | (split at hargs <;>
                                        first
                                          | (cases hargs; rfl)
                                          | (cases hargs)))))))

/-- Claim C6 witness: the `NotAllDarkFrames` handler exists and its
`error_dialog` call crashes with `TypeError`. -/
theorem c6_handlers_crash_with_type_error_witness :
    CombineThreadWorker.session_error_dialog_arguments "NotAllDarkFrames" =
      some ["The selected files are not all Dark Frames",
        "check the ignore-type box to proceed"] ∧
    (["The selected files are not all Dark Frames",
        "check the ignore-type box to proceed"] : List String).length = 2 :=
  ⟨rfl, c6_handlers_crash_with_type_error.2.2 "NotAllDarkFrames" _ rfl⟩

/-- Claim C7 (code bug): on the empty input list the grouped exposure
and temperature stages crash with `IndexError` (modelled `none`) instead
of returning normally, and the stages that do return are inconsistent:
the grouped size stage returns no groups while every ungrouped stage
returns one empty group. -/
theorem c7_empty_input_behavior :
    (∀ tolerance : Rat, FileCombiner.get_groups_by_exposure [] true tolerance = none) ∧
    (∀ tolerance : Rat, FileCombiner.get_groups_by_temperature [] true tolerance = none) ∧
    (∀ tolerance : Rat, SharedUtils.get_groups_by_exposure [] true tolerance = none) ∧
    (∀ tolerance : Rat, SharedUtils.get_groups_by_temperature [] true tolerance = none) ∧
    FileCombiner.get_groups_by_size [] true = [] ∧
    FileCombiner.get_groups_by_size [] false = [[]] ∧
    (∀ tolerance : Rat, FileCombiner.get_groups_by_exposure [] false tolerance = some [[]]) ∧
    (∀ tolerance : Rat, FileCombiner.get_groups_by_temperature [] false tolerance = some [[]]) :=
  ⟨fun _ => rfl, fun _ => rfl, fun _ => rfl, fun _ => rfl, rfl, rfl, fun _ => rfl, fun _ => rfl⟩

/-- Claim C9: a negative first (base) value makes
`values_same_within_tolerance` hold for every second value and every
nonnegative tolerance, because the nonnegative absolute difference is
divided by the signed negative base; consequently a temperature group
whose base (first, lowest) sorted temperature is negative is never
split: the whole sorted list comes back as one group. -/
theorem c9_negative_base_never_splits :
    (∀ first_value second_value tolerance : Rat, first_value < 0 → 0 ≤ tolerance →
      SharedUtils.values_same_within_tolerance first_value second_value tolerance = true) ∧
    (∀ (files : List FileDescriptor) (tolerance : Rat) (d : FileDescriptor)
        (ds : List FileDescriptor), 0 ≤ tolerance →
      sort_by_value (fun x => x.temperature) files = d :: ds → d.temperature < 0 →
      SharedUtils.get_groups_by_temperature files true tolerance = some [d :: ds]) := by
  refine ⟨vswt_negative_base_true, ?_⟩
  intro files tolerance d ds ht heq hneg
  simp only [SharedUtils.get_groups_by_temperature, if_true, heq]
  rw [su_scan_temperature_eq_scan_runs,
    scan_runs_all_pass (fun x => x.temperature) tolerance (d :: ds) d.temperature [] []
      (fun m _ => vswt_negative_base_true d.temperature m.temperature tolerance hneg ht)]
  simp

/-- Claim C9 witness: a base of -10 degrees keeps a frame 60 degrees
away in the same group at tolerance 0.1. -/
theorem c9_negative_base_never_splits_witness :
    SharedUtils.get_groups_by_temperature
        [sample_descriptor "a" 1 (-10), sample_descriptor "b" 1 50] true (1 / 10) =
      some [[sample_descriptor "a" 1 (-10), sample_descriptor "b" 1 50]] :=
  c9_negative_base_never_splits.2
    [sample_descriptor "a" 1 (-10), sample_descriptor "b" 1 50] (1 / 10)
    (sample_descriptor "a" 1 (-10)) [sample_descriptor "b" 1 50]
    (by norm_num) (by rfl) (by norm_num [sample_descriptor])

/-- Claim C10: the two independently maintained copies of the grouping
engine in `FileCombiner.py` and `SharedUtils.py` are extensionally
equal, stage by stage, for every input list, grouping flag and
tolerance. -/
theorem c10_copies_extensionally_equal :
    (∀ (files : List FileDescriptor) (is_grouped : Bool),
      FileCombiner.get_groups_by_size files is_grouped =
        SharedUtils.get_groups_by_size files is_grouped) ∧
    (∀ (files : List FileDescriptor) (is_grouped : Bool) (tolerance : Rat),
      FileCombiner.get_groups_by_exposure files is_grouped tolerance =
        SharedUtils.get_groups_by_exposure files is_grouped tolerance) ∧
    (∀ (files : List FileDescriptor) (is_grouped : Bool) (tolerance : Rat),
      FileCombiner.get_groups_by_temperature files is_grouped tolerance =
        SharedUtils.get_groups_by_temperature files is_grouped tolerance) :=
  ⟨fc_su_groups_by_size_eq, fc_su_groups_by_exposure_eq, fc_su_groups_by_temperature_eq⟩

end Claims

section ClaimsB

/-- Claim C1 counterexample: on the empty descriptor list with size
grouping off and exposure grouping on, the nested grouping crashes
(`files_sorted[0]` raises `IndexError`), so no group list at all is
produced, let alone one whose flattening is the input multiset. -/
theorem c1_counterexample_empty_input :
    FileCombiner.process_groups_grouping [] false true false (1 / 10) (1 / 10) = none ∧
    ¬∃ gs, FileCombiner.process_groups_grouping [] false true false (1 / 10) (1 / 10) =
        some gs ∧ gs.flatten.Perm ([] : List FileDescriptor) := by
  refine ⟨rfl, ?_⟩
  rintro ⟨gs, hgs, -⟩
  rw [show FileCombiner.process_groups_grouping [] false true false (1 / 10) (1 / 10) = none
    from rfl] at hgs
  cases hgs

/-- Claim C1 (amended to non-empty inputs and nonnegative tolerances):
the nested size, exposure, temperature grouping of `process_groups`
succeeds and flattening its innermost groups is a permutation (equal
multiset) of the input: nothing lost, nothing duplicated. -/
theorem c1_flatten_is_input_multiset :
    ∀ (selected_files : List FileDescriptor)
      (group_by_size group_by_exposure group_by_temperature : Bool)
      (exposure_tolerance temperature_tolerance : Rat),
      selected_files ≠ [] → 0 ≤ exposure_tolerance → 0 ≤ temperature_tolerance →
      ∃ gs, FileCombiner.process_groups_grouping selected_files group_by_size
          group_by_exposure group_by_temperature exposure_tolerance temperature_tolerance =
          some gs ∧ gs.flatten.Perm selected_files := by
  intro files bs be bt te tt hne hte htt
  obtain ⟨hperm, hnonempty⟩ := fc_groups_by_size_stage files bs hne
  obtain ⟨ts, hts, hperm2, _⟩ := exposure_stage_total be te bt tt hte htt
    (FileCombiner.get_groups_by_size files bs) hnonempty
  exact ⟨ts, hts, hperm2.trans hperm⟩

/-- Claim C1 witness: two frames with distinct exposures and
temperatures, all three grouping criteria enabled. -/
theorem c1_flatten_is_input_multiset_witness :
    ∃ gs, FileCombiner.process_groups_grouping
        [sample_descriptor "a" 10 (-10), sample_descriptor "b" 30 5] true true true
        (1 / 10) (1 / 10) = some gs ∧
      gs.flatten.Perm [sample_descriptor "a" 10 (-10), sample_descriptor "b" 30 5] :=
  c1_flatten_is_input_multiset
    [sample_descriptor "a" 10 (-10), sample_descriptor "b" 30 5] true true true
    (1 / 10) (1 / 10) (by simp) (by norm_num) (by norm_num)

/-- Claim C2: with grouping enabled and a nonnegative tolerance (the
configuration boundary rejects negative tolerances), the exposure stage
equals the spec-worded algorithm: sort ascending by exposure, then scan
starting a new group exactly when the current frame fails the tolerance
test against the first frame of the current run, the test being
difference over the base when the base is nonzero, else over the other
value, else true; the temperature stage is the identical algorithm over
temperatures. -/
theorem c2_scan_matches_spec_algorithm :
    ∀ (files : List FileDescriptor) (tolerance : Rat), files ≠ [] → 0 ≤ tolerance →
      FileCombiner.get_groups_by_exposure files true tolerance =
        some (spec_groups_by (fun d => d.exposure) tolerance files) ∧
      FileCombiner.get_groups_by_temperature files true tolerance =
        some (spec_groups_by (fun d => d.temperature) tolerance files) ∧
      List.Sorted (value_le (fun d => d.exposure)) (sort_by_value (fun d => d.exposure) files) ∧
      (sort_by_value (fun d => d.exposure) files).Perm files ∧
      (∀ a b : Rat, spec_tolerance_test a b tolerance =
        SharedUtils.values_same_within_tolerance a b tolerance) := by
  intro files tolerance hne ht
  refine ⟨?_, ?_, sort_by_value_sorted _ _, sort_by_value_perm _ _,
    fun a b => spec_tolerance_test_agrees a b tolerance⟩
  · obtain ⟨first, rest, heq⟩ :=
      List.exists_cons_of_ne_nil (sort_by_value_ne_nil (fun d => d.exposure) files hne)
    have hspec : spec_groups_by (fun d => d.exposure) tolerance files =
        spec_scan (fun d => d.exposure) tolerance first [first] [] rest := by
      unfold spec_groups_by
      rw [heq]
    simp only [FileCombiner.get_groups_by_exposure, if_true, heq, hspec]
    rw [fc_scan_exposure_eq_scan_runs]
    have hstep : scan_runs (fun d => d.exposure) tolerance first.exposure [] []
        (first :: rest) =
        scan_runs (fun d => d.exposure) tolerance first.exposure [first] [] rest := by
      simp only [scan_runs]
      rw [if_pos (vswt_self_true first.exposure tolerance ht)]
      simp
    rw [hstep]
    exact congrArg some
      (scan_runs_eq_spec_scan (fun d => d.exposure) tolerance rest first [first] [])
  · obtain ⟨first, rest, heq⟩ :=
      List.exists_cons_of_ne_nil (sort_by_value_ne_nil (fun d => d.temperature) files hne)
    have hspec : spec_groups_by (fun d => d.temperature) tolerance files =
        spec_scan (fun d => d.temperature) tolerance first [first] [] rest := by
      unfold spec_groups_by
      rw [heq]
    simp only [FileCombiner.get_groups_by_temperature, if_true, heq, hspec]
    rw [fc_scan_temperature_eq_scan_runs]
    have hstep : scan_runs (fun d => d.temperature) tolerance first.temperature [] []
        (first :: rest) =
        scan_runs (fun d => d.temperature) tolerance first.temperature [first] [] rest := by
      simp only [scan_runs]
      rw [if_pos (vswt_self_true first.temperature tolerance ht)]
      simp
    rw [hstep]
    exact congrArg some
      (scan_runs_eq_spec_scan (fun d => d.temperature) tolerance rest first [first] [])

/-- Claim C2 witness: three frames with exposures 10, 11, 30 at
tolerance 0.1 confirm the stages agree with the spec algorithm. -/
theorem c2_scan_matches_spec_algorithm_witness :
    FileCombiner.get_groups_by_exposure
        [sample_descriptor "a" 10 0, sample_descriptor "b" 11 0, sample_descriptor "c" 30 0]
        true (1 / 10) =
      some (spec_groups_by (fun d => d.exposure) (1 / 10)
        [sample_descriptor "a" 10 0, sample_descriptor "b" 11 0,
          sample_descriptor "c" 30 0]) :=
  (c2_scan_matches_spec_algorithm
    [sample_descriptor "a" 10 0, sample_descriptor "b" 11 0, sample_descriptor "c" 30 0]
    (1 / 10) (by simp) (by norm_num)).1

/-- Claim C4: when the size and binning filter leaves survivors and all
their temperature differences are below the `sys.float_info.max`
sentinel, `get_best_calibration_file` returns the path of the first
survivor attaining the minimum absolute temperature difference from the
sample frame: no later survivor beats it, and every earlier survivor is
strictly farther. -/
theorem c4_best_calibration_first_minimum :
    ∀ (directory_path : String) (all_descriptors : List FileDescriptor)
      (sample_file : FileDescriptor),
      Calibrator.filter_to_correct_size all_descriptors sample_file ≠ [] →
      (∀ d ∈ Calibrator.filter_to_correct_size all_descriptors sample_file,
        Calibrator.temperature_difference sample_file.temperature d <
          Calibrator.float_info_max) →
      ∃ before best after,
        Calibrator.filter_to_correct_size all_descriptors sample_file =
          before ++ best :: after ∧
        Calibrator.get_best_calibration_file directory_path all_descriptors sample_file =
          Except.ok best.absolute_path ∧
        (∀ d ∈ Calibrator.filter_to_correct_size all_descriptors sample_file,
          Calibrator.temperature_difference sample_file.temperature best ≤
            Calibrator.temperature_difference sample_file.temperature d) ∧
        (∀ d ∈ before,
          Calibrator.temperature_difference sample_file.temperature best <
            Calibrator.temperature_difference sample_file.temperature d) := by
  intro directory_path all_descriptors sample_file hne hbd
  have hall_ne : all_descriptors ≠ [] := by
    intro h
    apply hne
    rw [h]
    rfl
  have hlen : ¬all_descriptors.length = 0 := by
    simpa [List.length_eq_zero] using hall_ne
  have hslen : ¬(Calibrator.filter_to_correct_size all_descriptors sample_file).length = 0 := by
    simpa [List.length_eq_zero] using hne
  rcases closest_match_foldl_spec sample_file.temperature
      (Calibrator.filter_to_correct_size all_descriptors sample_file)
      Calibrator.empty_file_descriptor Calibrator.float_info_max with
    ⟨_, hallmax⟩ | ⟨before, x, after, hsplit, heq, _, hbef, haft⟩
  · obtain ⟨d, hd⟩ := List.exists_mem_of_ne_nil _ hne
    exact absurd (hbd d hd) (not_lt.2 (hallmax d hd))
  · have hclosest : Calibrator.closest_temperature_match
        (Calibrator.filter_to_correct_size all_descriptors sample_file)
        sample_file.temperature = x := by
      unfold Calibrator.closest_temperature_match
      rw [heq]
    refine ⟨before, x, after, hsplit, ?_, ?_, hbef⟩
    · simp only [Calibrator.get_best_calibration_file]
      rw [if_neg hlen, if_neg hslen, hclosest]
    · intro d hd
      rw [hsplit] at hd
      rcases List.mem_append.1 hd with hd | hd
      · exact le_of_lt (hbef d hd)
      · rcases List.mem_cons.1 hd with rfl | hd
        · exact le_refl _
        · exact haft d hd

/-- Claim C4 witness: the spec's end-to-end scenario C: candidates at
-10, -5 and 0 degrees with the sample frame at -4 degrees select the
-5 degree candidate. -/
theorem c4_best_calibration_first_minimum_witness :
    ∃ before best after,
      Calibrator.filter_to_correct_size
          [sample_descriptor "b1" 10 (-10), sample_descriptor "b2" 10 (-5),
            sample_descriptor "b3" 10 0] (sample_descriptor "s" 10 (-4)) =
        before ++ best :: after ∧
      Calibrator.get_best_calibration_file "dir"
          [sample_descriptor "b1" 10 (-10), sample_descriptor "b2" 10 (-5),
            sample_descriptor "b3" 10 0] (sample_descriptor "s" 10 (-4)) =
        Except.ok best.absolute_path ∧
      (∀ d ∈ Calibrator.filter_to_correct_size
          [sample_descriptor "b1" 10 (-10), sample_descriptor "b2" 10 (-5),
            sample_descriptor "b3" 10 0] (sample_descriptor "s" 10 (-4)),
        Calibrator.temperature_difference (sample_descriptor "s" 10 (-4)).temperature best ≤
          Calibrator.temperature_difference (sample_descriptor "s" 10 (-4)).temperature d) ∧
      (∀ d ∈ before,
        Calibrator.temperature_difference (sample_descriptor "s" 10 (-4)).temperature best <
          Calibrator.temperature_difference (sample_descriptor "s" 10 (-4)).temperature d) :=
  c4_best_calibration_first_minimum "dir"
    [sample_descriptor "b1" 10 (-10), sample_descriptor "b2" 10 (-5),
      sample_descriptor "b3" 10 0] (sample_descriptor "s" 10 (-4))
    (by decide)
    (by
      norm_num [Calibrator.filter_to_correct_size, Calibrator.temperature_difference,
        Calibrator.float_info_max, rat_abs, sample_descriptor])

/-- Claim C8 counterexample: at the negative tolerance -1 the exposure
stage emits a spurious empty group, and regrouping the produced
singleton group with that same tolerance splits it into two groups
instead of returning it unchanged. -/
theorem c8_counterexample_negative_tolerance :
    FileCombiner.get_groups_by_exposure [sample_descriptor "a" 1 0] true (-1) =
      some [[], [sample_descriptor "a" 1 0]] ∧
    [sample_descriptor "a" 1 0] ∈ [([] : List FileDescriptor), [sample_descriptor "a" 1 0]] ∧
    FileCombiner.get_groups_by_exposure [sample_descriptor "a" 1 0] true (-1) ≠
      some [[sample_descriptor "a" 1 0]] := by
  have h1 : FileCombiner.get_groups_by_exposure [sample_descriptor "a" 1 0] true (-1) =
      some [[], [sample_descriptor "a" 1 0]] := by
    norm_num [FileCombiner.get_groups_by_exposure, sort_by_value, List.insertionSort,
      List.orderedInsert, value_le, FileCombiner.scan_by_exposure,
      SharedUtils.values_same_within_tolerance, rat_abs, sample_descriptor]
  refine ⟨h1, by simp, ?_⟩
  rw [h1]
  simp

/-- Claim C8 (amended to nonnegative tolerances, as enforced at the
configuration boundary): tolerance grouping is idempotent, regrouping
any single group produced by the exposure (or temperature) stage with
the same tolerance returns that group unchanged as one group. -/
theorem c8_regrouping_idempotent :
    (∀ (files : List FileDescriptor) (tolerance : Rat) (gs : List (List FileDescriptor))
        (g : List FileDescriptor), 0 ≤ tolerance →
      FileCombiner.get_groups_by_exposure files true tolerance = some gs → g ∈ gs →
      FileCombiner.get_groups_by_exposure g true tolerance = some [g]) ∧
    (∀ (files : List FileDescriptor) (tolerance : Rat) (gs : List (List FileDescriptor))
        (g : List FileDescriptor), 0 ≤ tolerance →
      FileCombiner.get_groups_by_temperature files true tolerance = some gs → g ∈ gs →
      FileCombiner.get_groups_by_temperature g true tolerance = some [g]) := by
  constructor
  · intro files tolerance gs g ht hgs hmem
    exact fc_regroup_exposure tolerance g ht
      (fc_groups_by_exposure_good files tolerance gs ht hgs g hmem)
  · intro files tolerance gs g ht hgs hmem
    exact fc_regroup_temperature tolerance g ht
      (fc_groups_by_temperature_good files tolerance gs ht hgs g hmem)

/-- Claim C8 witness: regrouping the group of exposures 10 and 11
produced at tolerance 0.1 returns it unchanged as one group. -/
theorem c8_regrouping_idempotent_witness :
    FileCombiner.get_groups_by_exposure
        [sample_descriptor "a" 10 0, sample_descriptor "b" 11 0] true (1 / 10) =
      some [[sample_descriptor "a" 10 0, sample_descriptor "b" 11 0]] :=
  c8_regrouping_idempotent.1
    [sample_descriptor "a" 10 0, sample_descriptor "b" 11 0, sample_descriptor "c" 30 0]
    (1 / 10)
    [[sample_descriptor "a" 10 0, sample_descriptor "b" 11 0], [sample_descriptor "c" 30 0]]
    [sample_descriptor "a" 10 0, sample_descriptor "b" 11 0]
    (by norm_num)
    (by
      norm_num [FileCombiner.get_groups_by_exposure, sort_by_value, List.insertionSort,
        List.orderedInsert, value_le, FileCombiner.scan_by_exposure,
        SharedUtils.values_same_within_tolerance, rat_abs, sample_descriptor])
    (by simp)

end ClaimsB
